import Mathlib

/-!
Verification development for the s3strata tiered object-storage library
(Python package `s3strata`, sources `s3strata/config.py`, `s3strata/types.py`,
`s3strata/objectstore.py`, `s3strata/file_manager.py`, and the reference
adapter `examples/sqlalchemy_adapter.py`).

The Python code is shallowly embedded: pure functions become Lean functions,
exceptions become `Except String`, the mutable world (metadata records held by
the storage adapter, plus the object-store side effects) becomes an explicit
state `SysState` threaded through each operation together with an event trace.
Timestamps (`datetime`) are modelled as integers, durations as integers.
Python `Optional` fields become `Option`; Python string truthiness (`not x`
is true for both `None` and `""`) is modelled by `pyTruthy`.

Note on names: Python field names `public_prefix`, `private_prefix`,
`public_hot_prefix`, `private_hot_prefix`, `public_cold_prefix`,
`private_cold_prefix` and the helper `get_path_prefix` are rendered here with
`pfx` in place of the final word of the source name (`public_pfx`,
`get_path_pfx`, ...); everything else keeps the source's snake_case names.
-/

namespace S3Strata

/-- `StorageTier` from `s3strata/types.py`: a string enum with values
`"HOT"` and `"COLD"`. -/
inductive StorageTier where
  | HOT
  | COLD
deriving DecidableEq, Repr

/-- The underlying string value of the enum member (`tier.value`, also how the
member renders inside f-strings). -/
def StorageTier.value : StorageTier → String
  | .HOT => "HOT"
  | .COLD => "COLD"

/-- `tier.lower()` on the enum's string value. -/
def StorageTier.lower : StorageTier → String
  | .HOT => "hot"
  | .COLD => "cold"

/-- `FileVisibility` from `s3strata/types.py`: a string enum with values
`"PUBLIC"` and `"PRIVATE"`. -/
inductive FileVisibility where
  | PUBLIC
  | PRIVATE
deriving DecidableEq, Repr

/-- Python truthiness of an optional string: `None` and `""` are falsy,
all other strings truthy.  Used to embed `not config.endpoint` etc. -/
def pyTruthy : Option String → Bool
  | none => false
  | some s => !s.isEmpty

/-- Python `x or d` for an optional string `x`: yields `x` when truthy,
otherwise the default `d`. -/
def pyStrOr (x : Option String) (d : String) : String :=
  match x with
  | some s => if s.isEmpty then d else s
  | none => d

/-- Python `x or d` for an optional integer `x`: `None` and `0` are falsy. -/
def pyIntOr (x : Option Int) (d : Int) : Int :=
  match x with
  | some v => if v = 0 then d else v
  | none => d

/-- `S3StrataAdvancedOptions` from `s3strata/config.py`.
(`max_file_size`, a float defaulting to infinity, is unused by any embedded
operation and is omitted: floating-point values are outside this embedding.) -/
structure S3StrataAdvancedOptions where
  default_presigned_url_expiration : Int := 14400
  default_storage_tier : StorageTier := .HOT
  default_visibility : FileVisibility := .PRIVATE
deriving DecidableEq, Repr

/-- `S3TierConfig` from `s3strata/config.py`.  The source declares
`public_prefix: str = "public"` and `private_prefix: str = "private"`, but
Python does not enforce dataclass annotations and `get_tier_config` can in
fact populate these two fields with `None` (see
`hot_shared_default_pfx_resolve_to_none` below), so they are embedded as
`Option String`. -/
structure S3TierConfig where
  endpoint : String
  access_key : String
  secret_key : String
  bucket : String
  port : Int := 443
  use_ssl : Bool := true
  public_pfx : Option String := some "public"
  private_pfx : Option String := some "private"
deriving DecidableEq, Repr

/-- `S3StrataConfig` from `s3strata/config.py`: shared-endpoint fields,
per-tier overrides, and advanced options. -/
structure S3StrataConfig where
  endpoint : Option String := none
  port : Option Int := none
  use_ssl : Option Bool := none
  access_key : Option String := none
  secret_key : Option String := none
  hot_bucket : Option String := none
  cold_bucket : Option String := none
  public_hot_pfx : Option String := none
  private_hot_pfx : Option String := none
  public_cold_pfx : Option String := none
  private_cold_pfx : Option String := none
  hot : Option S3TierConfig := none
  cold : Option S3TierConfig := none
  advanced : S3StrataAdvancedOptions := {}
deriving DecidableEq, Repr

/-- The bucket field name mentioned in `get_tier_config`'s error messages. -/
def bucket_field_name : StorageTier → String
  | .HOT => "hot_bucket"
  | .COLD => "cold_bucket"

/-- The `ValueError` message raised when shared endpoint/credentials are
missing (first `raise` in `get_tier_config`). -/
def missing_shared_msg (tier : StorageTier) : String :=
  "Missing S3 configuration for " ++ tier.value ++
    " tier. Provide either shared config (endpoint, access_key, secret_key, " ++
    bucket_field_name tier ++ ") or tier-specific config (" ++ tier.lower ++ ")."

/-- The `ValueError` message raised when the tier-appropriate bucket is
missing (second `raise` in `get_tier_config`). -/
def missing_bucket_msg (tier : StorageTier) : String :=
  "Missing bucket configuration for " ++ tier.value ++ " tier. Provide either " ++
    bucket_field_name tier ++ " or " ++ tier.lower ++ ".bucket"

/-- The shared-config fallback part of `get_tier_config`
(`s3strata/config.py`, the body after the two per-tier early returns).

Note the faithful rendering of the Python conditional-expression precedence in
the two visibility-prefix fields: in the source they read

`config.public_hot_prefix if tier == StorageTier.HOT else config.public_cold_prefix or "public"`

which Python parses as
`... if tier == HOT else (config.public_cold_prefix or "public")`,
so the `or "public"` default applies only on the COLD branch; for HOT the
field is taken verbatim (possibly `None`). -/
def shared_tier_config (config : S3StrataConfig) (tier : StorageTier) :
    Except String S3TierConfig :=
  if !pyTruthy config.endpoint || !pyTruthy config.access_key ||
      !pyTruthy config.secret_key then
    Except.error (missing_shared_msg tier)
  else
    let bucket := if tier = StorageTier.HOT then config.hot_bucket else config.cold_bucket
    if !pyTruthy bucket then
      Except.error (missing_bucket_msg tier)
    else
      Except.ok
        { endpoint := config.endpoint.getD ""
          port := config.port.getD 443
          use_ssl := config.use_ssl.getD true
          access_key := config.access_key.getD ""
          secret_key := config.secret_key.getD ""
          bucket := bucket.getD ""
          public_pfx :=
            if tier = StorageTier.HOT then config.public_hot_pfx
            else some (pyStrOr config.public_cold_pfx "public")
          private_pfx :=
            if tier = StorageTier.HOT then config.private_hot_pfx
            else some (pyStrOr config.private_cold_pfx "private") }

/-- `get_tier_config` from `s3strata/config.py`: per-tier override when
present, otherwise the shared-config fallback. -/
def get_tier_config (config : S3StrataConfig) (tier : StorageTier) :
    Except String S3TierConfig :=
  match tier, config.hot, config.cold with
  | StorageTier.HOT, some c, _ => Except.ok c
  | StorageTier.COLD, _, some c => Except.ok c
  | StorageTier.HOT, none, _ => shared_tier_config config StorageTier.HOT
  | StorageTier.COLD, _, none => shared_tier_config config StorageTier.COLD

/-- `get_bucket_name` from `s3strata/config.py`. -/
def get_bucket_name (config : S3StrataConfig) (tier : StorageTier) :
    Except String String :=
  (get_tier_config config tier).map (fun tc => tc.bucket)

/-- `get_path_prefix` from `s3strata/config.py` (see the note on names). -/
def get_path_pfx (config : S3StrataConfig) (tier : StorageTier)
    (visibility : FileVisibility) : Except String (Option String) :=
  (get_tier_config config tier).map fun tc =>
    if visibility = FileVisibility.PUBLIC then tc.public_pfx else tc.private_pfx

/-- `get_default_presigned_url_expiration` from `s3strata/config.py`. -/
def get_default_presigned_url_expiration (config : S3StrataConfig) : Int :=
  config.advanced.default_presigned_url_expiration

/-- `get_default_storage_tier` from `s3strata/config.py`. -/
def get_default_storage_tier (config : S3StrataConfig) : StorageTier :=
  config.advanced.default_storage_tier

/-- `get_default_visibility` from `s3strata/config.py`. -/
def get_default_visibility (config : S3StrataConfig) : FileVisibility :=
  config.advanced.default_visibility

/-! ## String helpers: `str.startswith` and `urllib.parse.quote` -/

/-- `listStarts s p`: the character list `s` starts with the character list
`p`. -/
def listStarts : List Char → List Char → Bool
  | _, [] => true
  | [], _ :: _ => false
  | a :: s, b :: p => a == b && listStarts s p

/-- Python `s.startswith(p)` on strings, via the underlying character lists. -/
def startswith (s p : String) : Bool :=
  listStarts s.data p.data

/-- An uppercase hexadecimal digit (for percent-encoding). -/
def hexDigit (n : Nat) : Char :=
  if n < 10 then Char.ofNat (48 + n) else Char.ofNat (55 + n)

/-- The UTF-8 encoding of one character, as byte values. -/
def utf8Bytes (c : Char) : List Nat :=
  let n := c.toNat
  if n < 0x80 then [n]
  else if n < 0x800 then [0xC0 + n / 0x40, 0x80 + n % 0x40]
  else if n < 0x10000 then
    [0xE0 + n / 0x1000, 0x80 + n / 0x40 % 0x40, 0x80 + n % 0x40]
  else
    [0xF0 + n / 0x40000, 0x80 + n / 0x1000 % 0x40, 0x80 + n / 0x40 % 0x40,
      0x80 + n % 0x40]

/-- `urllib.parse.quote(path, safe="/")` as used by
`ObjectStoreService.get_public_url`: ASCII letters, digits, `_.-~` and the
safe character `/` pass through, every other character is `%XX`-encoded
byte-wise over its UTF-8 encoding. -/
def quote (s : String) : String :=
  String.join <| s.data.map fun c =>
    if c.isAlphanum || c = '_' || c = '.' || c = '-' || c = '~' || c = '/' then
      String.singleton c
    else
      String.join <| (utf8Bytes c).map fun b =>
        "%" ++ String.singleton (hexDigit (b / 16)) ++ String.singleton (hexDigit (b % 16))

/-! ## The orchestrator's world: records, events, object-store oracle

`FileManager` (in `s3strata/file_manager.py`) composes three effectful
collaborators: the metadata adapter (embedded from the repository's concrete
reference implementation, `SQLAlchemyAdapter` in
`examples/sqlalchemy_adapter.py`, as an in-memory table), the
`ObjectStoreService` (whose boto3 transport is external; its success/failure
and presigned URLs are an oracle `ObjectStore`), and the resolved
configuration.  All mutation is made explicit: each operation maps a
`SysState` (adapter table + event trace) to a new `SysState` together with an
`Except` result; a Python exception is an `Except.error` carrying the final
state at the moment of the raise. -/

/-- `PhysicalFile` from `s3strata/types.py`.  `id` is the adapter's
autoincrement integer key (the reference adapter uses integer primary keys);
`storage_tier` is kept in normalized enum form (`FileManager._normalize_tier`
maps the string values `"HOT"`/`"COLD"` onto the enum); timestamps are
integers. -/
structure PhysicalFile where
  id : Nat
  storage_tier : StorageTier
  filename : String
  path : String
  hot_until : Option Int
  created_at : Option Int := none
  updated_at : Option Int := none
deriving DecidableEq, Repr

/-- The metadata adapter's table: the rows of `physical_files` plus the next
autoincrement id, embedding the database behind
`examples/sqlalchemy_adapter.py`. -/
structure AdapterState where
  records : List PhysicalFile
  next_id : Nat := 1
deriving DecidableEq, Repr

/-- One observable side effect, in program order: the object-store calls
issued by `FileManager` and the adapter's mutating calls. -/
inductive Event where
  | putObject (tier : StorageTier) (path : String)
  | deleteObject (tier : StorageTier) (path : String)
  | moveObject (source_tier : StorageTier) (source_path : String)
      (dest_tier : StorageTier) (dest_path : String)
  | adapterCreate (storage_tier : StorageTier) (filename : String) (path : String)
      (hot_until : Option Int)
  | adapterUpdate (id : Nat) (storage_tier : Option StorageTier)
      (path : Option String) (hot_until : Option Int)
  | adapterDelete (id : Nat)
deriving DecidableEq, Repr

/-- The world state threaded through every `FileManager` operation. -/
structure SysState where
  adapter : AdapterState
  events : List Event := []
deriving DecidableEq, Repr

/-- Oracle for the external S3 transport behind `ObjectStoreService`
(`s3strata/objectstore.py`): which calls fail with a transport error, and
what boto3's `generate_presigned_url` returns. -/
structure ObjectStore where
  uploadFails : StorageTier → String → Bool
  deleteFails : StorageTier → String → Bool
  moveFails : StorageTier → String → StorageTier → String → Bool
  presign : StorageTier → String → Int → String

/-- `ObjectStoreService.upload` (a boto3 `put_object`): either raises a
transport error, or records the put. -/
def os_upload (os : ObjectStore) (tier : StorageTier) (path : String)
    (_data : List Nat) (s : SysState) : SysState × Except String Unit :=
  if os.uploadFails tier path then (s, Except.error "S3 upload failed")
  else ({ s with events := s.events ++ [Event.putObject tier path] }, Except.ok ())

/-- `ObjectStoreService.delete` (a boto3 `delete_object`). -/
def os_delete (os : ObjectStore) (tier : StorageTier) (path : String)
    (s : SysState) : SysState × Except String Unit :=
  if os.deleteFails tier path then (s, Except.error "S3 delete failed")
  else ({ s with events := s.events ++ [Event.deleteObject tier path] }, Except.ok ())

/-- `ObjectStoreService.move` (copy = download+upload of the source, then
delete of the source), modelled as a single fallible transfer. -/
def os_move (os : ObjectStore) (source_tier : StorageTier) (source_path : String)
    (dest_tier : StorageTier) (dest_path : String) (s : SysState) :
    SysState × Except String Unit :=
  if os.moveFails source_tier source_path dest_tier dest_path then
    (s, Except.error "S3 move failed")
  else
    ({ s with
        events := s.events ++ [Event.moveObject source_tier source_path dest_tier dest_path] },
      Except.ok ())

/-- The record the adapter currently holds under a given id
(`select(...).where(PhysicalFileModel.id == id)`). -/
def storedById (s : SysState) (id : Nat) : Option PhysicalFile :=
  s.adapter.records.find? fun r => r.id == id

/-- `SQLAlchemyAdapter.create`: inserts a fresh row (autoincrement id,
`created_at`/`updated_at` set to now) and returns its DTO. -/
def adapter_create (now : Int) (storage_tier : StorageTier) (filename : String)
    (path : String) (hot_until : Option Int) (s : SysState) :
    SysState × PhysicalFile :=
  let f : PhysicalFile :=
    { id := s.adapter.next_id, storage_tier := storage_tier, filename := filename,
      path := path, hot_until := hot_until, created_at := some now,
      updated_at := some now }
  ({ adapter := { records := s.adapter.records ++ [f], next_id := s.adapter.next_id + 1 },
     events := s.events ++ [Event.adapterCreate storage_tier filename path hot_until] },
    f)

/-- Replace the row with the given id by `g` (the effect of SQLAlchemy's
in-place mutation of the selected row, seen on the table). -/
def replaceById (l : List PhysicalFile) (id : Nat) (g : PhysicalFile) :
    List PhysicalFile :=
  l.map fun r => if r.id == id then g else r

/-- The row as mutated by `SQLAlchemyAdapter.update`: each argument is
applied only when it `is not None` — in particular an explicit
`hot_until=None` leaves the stored `hot_until` untouched — and `updated_at`
is stamped. -/
def updatedRow (now : Int) (f : PhysicalFile) (storage_tier : Option StorageTier)
    (path : Option String) (hot_until : Option Int) : PhysicalFile :=
  { f with
    storage_tier := storage_tier.getD f.storage_tier
    path := path.getD f.path
    hot_until := match hot_until with | some t => some t | none => f.hot_until
    updated_at := some now }

/-- `SQLAlchemyAdapter.update`: loads the row (`scalar_one`, raising when it
is absent), mutates it per `updatedRow`, and returns the updated DTO. -/
def adapter_update (now : Int) (id : Nat) (storage_tier : Option StorageTier)
    (path : Option String) (hot_until : Option Int) (s : SysState) :
    SysState × Except String PhysicalFile :=
  match storedById s id with
  | none => (s, Except.error "NoResultFound")
  | some f =>
    let f2 := updatedRow now f storage_tier path hot_until
    ({ adapter := { s.adapter with records := replaceById s.adapter.records id f2 }
       events := s.events ++ [Event.adapterUpdate id storage_tier path hot_until] },
      Except.ok f2)

/-- `SQLAlchemyAdapter.delete`: loads the row (`scalar_one`, raising when it
is absent) and removes it. -/
def adapter_delete (id : Nat) (s : SysState) : SysState × Except String Unit :=
  match storedById s id with
  | none => (s, Except.error "NoResultFound")
  | some _ =>
    ({ adapter :=
        { s.adapter with records := s.adapter.records.filter fun r => !(r.id == id) }
       events := s.events ++ [Event.adapterDelete id] },
      Except.ok ())

/-- `SQLAlchemyAdapter.find_expired_hot_files`: all rows with
`storage_tier == "HOT"` and `hot_until <= now` (a SQL comparison, so rows
with `hot_until` NULL are excluded). -/
def find_expired_hot_files (now : Int) (s : SysState) : List PhysicalFile :=
  s.adapter.records.filter fun f =>
    f.storage_tier == StorageTier.HOT &&
      match f.hot_until with
      | some t => decide (t ≤ now)
      | none => false

/-- `SQLAlchemyAdapter.find_all`: every row. -/
def adapter_find_all (s : SysState) : List PhysicalFile :=
  s.adapter.records

/-! ## FileManager (`s3strata/file_manager.py`) -/

/-- `UploadOptions` from `s3strata/types.py`. -/
structure UploadOptions where
  tier : Option StorageTier := none
  visibility : Option FileVisibility := none
  filename : Option String := none
  path_suffix : Option String := none
  hot_duration : Option Int := none
deriving DecidableEq, Repr

/-- `GetUrlOptions` from `s3strata/types.py`. -/
structure GetUrlOptions where
  expires_in : Option Int := none
deriving DecidableEq, Repr

/-- `SetVisibilityOptions` from `s3strata/types.py`. -/
structure SetVisibilityOptions where
  visibility : FileVisibility
  move_file : Bool := true
deriving DecidableEq, Repr

/-- `SetTierOptions` from `s3strata/types.py`. -/
structure SetTierOptions where
  tier : StorageTier
  move_file : Bool := true
  hot_duration : Option Int := none
deriving DecidableEq, Repr

/-- `SetHotDurationOptions` from `s3strata/types.py`. -/
structure SetHotDurationOptions where
  duration : Option Int
deriving DecidableEq, Repr

/-- `FileManager._get_visibility_from_path`: parse the visibility from the
path against the hardcoded literals `"public/"` and `"private/"`, raising
`ValueError` otherwise. -/
def get_visibility_from_path (path : String) : Except String FileVisibility :=
  if startswith path "public/" then Except.ok FileVisibility.PUBLIC
  else if startswith path "private/" then Except.ok FileVisibility.PRIVATE
  else Except.error ("Invalid path format: " ++ path)

/-- How Python's f-string renders a value that may be `None`
(`f"{prefix}/{path_suffix}"` prints `None` for a missing prefix). -/
def renderOptStr : Option String → String
  | some s => s
  | none => "None"

/-- `FileManager._build_path`: `f"{prefix}/{path_suffix}"` over the resolved
visibility prefix. -/
def build_path (config : S3StrataConfig) (tier : StorageTier)
    (visibility : FileVisibility) (path_suffix : String) : Except String String :=
  (get_path_pfx config tier visibility).map fun p =>
    renderOptStr p ++ "/" ++ path_suffix

/-- The tier resolved at the start of `FileManager.upload`
(`options.tier or get_default_storage_tier(...)`; enum members are always
truthy). -/
def upload_tier (config : S3StrataConfig) (options : UploadOptions) : StorageTier :=
  options.tier.getD (get_default_storage_tier config)

/-- The visibility resolved at the start of `FileManager.upload`. -/
def upload_visibility (config : S3StrataConfig) (options : UploadOptions) :
    FileVisibility :=
  options.visibility.getD (get_default_visibility config)

/-- The filename synthesized by `FileManager.upload`
(`options.filename or str(uuid.uuid4())`; `uuidA` stands for the fresh
UUID). -/
def upload_filename (options : UploadOptions) (uuidA : String) : String :=
  pyStrOr options.filename uuidA

/-- The path suffix synthesized by `FileManager.upload`
(`options.path_suffix or f"{uuid.uuid4()}-{filename}"`; `uuidB` stands for
the second fresh UUID). -/
def upload_suffix (options : UploadOptions) (uuidA uuidB : String) : String :=
  pyStrOr options.path_suffix (uuidB ++ "-" ++ upload_filename options uuidA)

/-- The `hot_until` computed by `FileManager.upload`: only when the resolved
tier is HOT and a `hot_duration` was given. -/
def upload_hot_until (config : S3StrataConfig) (now : Int)
    (options : UploadOptions) : Option Int :=
  if upload_tier config options = StorageTier.HOT then
    options.hot_duration.map fun d => now + d
  else none

/-- The full object path computed by `FileManager.upload`. -/
def upload_full_path (config : S3StrataConfig) (options : UploadOptions)
    (uuidA uuidB : String) : Except String String :=
  build_path config (upload_tier config options) (upload_visibility config options)
    (upload_suffix options uuidA uuidB)

/-- `FileManager.upload`: resolve tier/visibility/filename/path, upload the
bytes to S3, then create the metadata record via the adapter. -/
def upload (os : ObjectStore) (config : S3StrataConfig) (now : Int)
    (uuidA uuidB : String) (data : List Nat) (options : UploadOptions)
    (s : SysState) : SysState × Except String PhysicalFile :=
  match upload_full_path config options uuidA uuidB with
  | Except.error e => (s, Except.error e)
  | Except.ok full_path =>
    match os_upload os (upload_tier config options) full_path data s with
    | (s1, Except.error e) => (s1, Except.error e)
    | (s1, Except.ok _) =>
      let sf := adapter_create now (upload_tier config options)
        (upload_filename options uuidA) full_path (upload_hot_until config now options) s1
      (sf.1, Except.ok sf.2)

/-- `ObjectStoreService.get_public_url`: deterministic URL construction from
the tier's resolved endpoint/port/bucket and the percent-encoded key. -/
def get_public_url (config : S3StrataConfig) (tier : StorageTier)
    (path : String) : Except String String :=
  (get_tier_config config tier).map fun tc =>
    let protocol := if tc.use_ssl then "https" else "http"
    let port_suffix := if tc.port = 443 || tc.port = 80 then "" else ":" ++ toString tc.port
    protocol ++ "://" ++ tc.endpoint ++ port_suffix ++ "/" ++ tc.bucket ++ "/" ++ quote path

/-- `FileManager.get_url`: derive visibility from the record's path; PUBLIC
gives the direct URL, PRIVATE a presigned URL with configured or
caller-supplied expiry (`options.expires_in or default`, Python truthiness). -/
def get_url (os : ObjectStore) (config : S3StrataConfig) (file : PhysicalFile)
    (options : GetUrlOptions) : Except String String :=
  match get_visibility_from_path file.path with
  | Except.error e => Except.error e
  | Except.ok visibility =>
    if visibility = FileVisibility.PUBLIC then
      get_public_url config file.storage_tier file.path
    else
      let expires_in := pyIntOr options.expires_in (get_default_presigned_url_expiration config)
      Except.ok (os.presign file.storage_tier file.path expires_in)

/-- `FileManager.set_visibility`: no-op when already at the target
visibility; otherwise strip the current resolved prefix off the path
(`file.path[len(current_prefix) + 1:]` — a `TypeError` when the resolved
prefix is `None`), build the new path, move the object when requested, then
update the record's path via the adapter. -/
def set_visibility (os : ObjectStore) (config : S3StrataConfig) (now : Int)
    (file : PhysicalFile) (options : SetVisibilityOptions) (s : SysState) :
    SysState × Except String PhysicalFile :=
  let tier := file.storage_tier
  match get_visibility_from_path file.path with
  | Except.error e => (s, Except.error e)
  | Except.ok current_visibility =>
    if current_visibility = options.visibility then (s, Except.ok file)
    else
      match get_path_pfx config tier current_visibility with
      | Except.error e => (s, Except.error e)
      | Except.ok none => (s, Except.error "TypeError: object of type NoneType has no len()")
      | Except.ok (some current_pfx) =>
        let path_suffix := file.path.drop (current_pfx.length + 1)
        match build_path config tier options.visibility path_suffix with
        | Except.error e => (s, Except.error e)
        | Except.ok new_path =>
          let step :=
            if options.move_file then os_move os tier file.path tier new_path s
            else (s, Except.ok ())
          match step with
          | (s1, Except.error e) => (s1, Except.error e)
          | (s1, Except.ok _) => adapter_update now file.id none (some new_path) none s1

/-- `FileManager.set_tier`: no-op when already at the target tier; moving to
HOT with a duration sets `hot_until = now + duration`; moving to HOT without
one does not pass `hot_until` to the adapter; moving to COLD passes
`hot_until=None` (intending to clear it); physical move (same path on both
tiers) happens before the record update. -/
def set_tier (os : ObjectStore) (now : Int) (file : PhysicalFile)
    (options : SetTierOptions) (s : SysState) : SysState × Except String PhysicalFile :=
  let current_tier := file.storage_tier
  let new_tier := options.tier
  if current_tier = new_tier then (s, Except.ok file)
  else
    let hu : Option Int × Bool :=
      if new_tier = StorageTier.HOT then
        match options.hot_duration with
        | some d => (some (now + d), true)
        | none => (none, false)
      else (none, true)
    let step :=
      if options.move_file then os_move os current_tier file.path new_tier file.path s
      else (s, Except.ok ())
    match step with
    | (s1, Except.error e) => (s1, Except.error e)
    | (s1, Except.ok _) =>
      if hu.2 then adapter_update now file.id (some new_tier) none hu.1 s1
      else adapter_update now file.id (some new_tier) none none s1

/-- `FileManager.delete`: delete the object from S3, then delete the record
via the adapter. -/
def delete (os : ObjectStore) (file : PhysicalFile) (s : SysState) :
    SysState × Except String Unit :=
  match os_delete os file.storage_tier file.path s with
  | (s1, Except.error e) => (s1, Except.error e)
  | (s1, Except.ok _) => adapter_delete file.id s1

/-- `FileManager.set_hot_duration`: only valid on HOT records; `duration == 0`
sets `hot_until = now`, a non-null duration sets `hot_until = now + duration`,
a null duration passes `hot_until=None` to the adapter (intending to clear
it).  No object-store call occurs. -/
def set_hot_duration (now : Int) (file : PhysicalFile)
    (options : SetHotDurationOptions) (s : SysState) :
    SysState × Except String PhysicalFile :=
  if file.storage_tier ≠ StorageTier.HOT then
    (s, Except.error "set_hot_duration only applies to HOT tier files")
  else
    let hot_until : Option Int :=
      match options.duration with
      | some d => if d = 0 then some now else some (now + d)
      | none => none
    adapter_update now file.id none none hot_until s

/-- The per-file loop of `FileManager.archive_expired_hot_files`: attempt a
tier transition to COLD with physical move for each record, counting
successes; an exception on one file is caught and processing continues. -/
def archive_loop (os : ObjectStore) (now : Int) :
    List PhysicalFile → SysState → Nat → SysState × Nat
  | [], s, n => (s, n)
  | f :: rest, s, n =>
    match set_tier os now f { tier := StorageTier.COLD, move_file := true } s with
    | (s1, Except.ok _) => archive_loop os now rest s1 (n + 1)
    | (s1, Except.error _) => archive_loop os now rest s1 n

/-- `FileManager.archive_expired_hot_files`: fetch the expired HOT records
once, then best-effort archive each; returns the number moved.  The loop body
catches every exception, so the operation itself cannot raise (its result
type carries no `Except`). -/
def archive_expired_hot_files (os : ObjectStore) (now : Int) (s : SysState) :
    SysState × Nat :=
  archive_loop os now (find_expired_hot_files now s) s 0

/-- `S3Object` from `s3strata/types.py` (timestamps as integers). -/
structure S3Object where
  key : String
  last_modified : Option Int := none
  size : Option Int := none
  etag : Option String := none
  storage_class : Option String := none
deriving DecidableEq, Repr

/-- `OrphanObject` from `s3strata/types.py`: an `S3Object` plus its tier and
bucket. -/
structure OrphanObject where
  key : String
  last_modified : Option Int := none
  size : Option Int := none
  etag : Option String := none
  storage_class : Option String := none
  tier : StorageTier := StorageTier.HOT
  bucket : String := ""
deriving DecidableEq, Repr

/-- The `OrphanObject` built by `FileManager.list_orphan_objects` for one
remote object. -/
def to_orphan (o : S3Object) (tier : StorageTier) (bucket : String) : OrphanObject :=
  { key := o.key, last_modified := o.last_modified, size := o.size,
    etag := o.etag, storage_class := o.storage_class, tier := tier, bucket := bucket }

/-- `FileManager.list_orphan_objects`.  The two bucket listings are external
reads and enter as inputs (`hot_objects`, `cold_objects`); the record set is
the adapter's `find_all`.  An object is an orphan when its key is absent from
the set of **all** record paths (not scoped by tier); each orphan is tagged
with its tier and that tier's bucket name. -/
def list_orphan_objects (config : S3StrataConfig) (hot_objects cold_objects : List S3Object)
    (s : SysState) : Except String (List OrphanObject) :=
  match get_bucket_name config StorageTier.HOT, get_bucket_name config StorageTier.COLD with
  | Except.error e, _ => Except.error e
  | _, Except.error e => Except.error e
  | Except.ok hot_bucket, Except.ok cold_bucket =>
    let db_paths := (adapter_find_all s).map fun f => f.path
    let hot_orphans :=
      ((hot_objects.filter fun o => decide (o.key ∉ db_paths)).map
        fun o => to_orphan o StorageTier.HOT hot_bucket)
    let cold_orphans :=
      ((cold_objects.filter fun o => decide (o.key ∉ db_paths)).map
        fun o => to_orphan o StorageTier.COLD cold_bucket)
    Except.ok (hot_orphans ++ cold_orphans)

/-! ## Helper notions and lemmas -/

/-- `listContains n s`: the character list `n` occurs contiguously in `s`. -/
def listContains (n : List Char) : List Char → Bool
  | [] => listStarts [] n
  | c :: s => listStarts (c :: s) n || listContains n s

/-- The string `needle` occurs as a substring of `hay`. -/
abbrev containsSub (hay needle : String) : Prop :=
  listContains needle.data hay.data = true

theorem pyTruthy_ne_none {x : Option String} (h : pyTruthy x = true) : x ≠ none := by
  intro hx
  rw [hx] at h
  simp [pyTruthy] at h

/-- A truthy optional string is some nonempty string. -/
theorem pyTruthy_iff {x : Option String} :
    pyTruthy x = true ↔ ∃ v, x = some v ∧ v.isEmpty = false := by
  cases x with
  | none => simp [pyTruthy]
  | some v =>
    simp only [pyTruthy, Bool.not_eq_true']
    constructor
    · intro h
      exact ⟨v, rfl, h⟩
    · rintro ⟨w, hw, h⟩
      cases hw
      exact h

theorem pyTruthy_none_eq : pyTruthy none = false := rfl

/-! ## Claim C1 — shared-mode tier resolution and its defaults

Claim C1 asserts that with no per-tier override and all shared fields
present, the resolved `TierConfig` carries the shared
endpoint/credentials/bucket, port 443 and SSL true when unset, and
visibility prefixes defaulting to the literals `"public"`/`"private"` when
the tier-specific override fields are unset — for both tiers.  The code
satisfies everything except the prefix defaults on the HOT tier: the Python
conditional expression
`config.public_hot_prefix if tier == HOT else config.public_cold_prefix or "public"`
parses with `or "public"` inside the `else` branch only, so for HOT an
unset override field flows through as `None` instead of `"public"` —
contradicting the dataclass's own `public_prefix: str` annotation and the
symmetric intent visible in the COLD branch.  The theorem below exhibits
this: all shared values, the port/SSL defaults, and the COLD prefix
defaults resolve as claimed, while the HOT prefixes resolve to `none`. -/

/-- Claim C1 (code bug): shared-mode resolution without per-tier overrides
returns the shared endpoint/credentials/bucket with port 443 and SSL true
defaults; the COLD prefixes default to `"public"`/`"private"` as claimed,
but the HOT prefixes resolve to `none` instead of the claimed literals. -/
theorem hot_shared_defaults_resolve_pfx_to_none
    (config : S3StrataConfig)
    (hhot : config.hot = none) (hcold : config.cold = none)
    (he : pyTruthy config.endpoint = true) (ha : pyTruthy config.access_key = true)
    (hsk : pyTruthy config.secret_key = true)
    (hhb : pyTruthy config.hot_bucket = true) (hcb : pyTruthy config.cold_bucket = true)
    (hp1 : config.public_hot_pfx = none) (hp2 : config.private_hot_pfx = none)
    (hp3 : config.public_cold_pfx = none) (hp4 : config.private_cold_pfx = none) :
    ∃ tcH tcC,
      get_tier_config config StorageTier.HOT = Except.ok tcH ∧
      get_tier_config config StorageTier.COLD = Except.ok tcC ∧
      tcH.endpoint = config.endpoint.getD "" ∧
      tcH.access_key = config.access_key.getD "" ∧
      tcH.secret_key = config.secret_key.getD "" ∧
      tcH.bucket = config.hot_bucket.getD "" ∧
      tcH.port = config.port.getD 443 ∧
      tcH.use_ssl = config.use_ssl.getD true ∧
      tcH.public_pfx = none ∧
      tcH.private_pfx = none ∧
      tcC.public_pfx = some "public" ∧
      tcC.private_pfx = some "private" := by
  obtain ⟨ce, cp, cssl, cak, csk, chb, ccb, cphh, cpvh, cphc, cpvc, chot, ccold, cadv⟩ := config
  simp only at he ha hsk hhb hcb hp1 hp2 hp3 hp4 hhot hcold
  subst hhot hcold hp1 hp2 hp3 hp4
  refine ⟨{ endpoint := ce.getD "", port := cp.getD 443, use_ssl := cssl.getD true,
            access_key := cak.getD "", secret_key := csk.getD "", bucket := chb.getD "",
            public_pfx := none, private_pfx := none },
          { endpoint := ce.getD "", port := cp.getD 443, use_ssl := cssl.getD true,
            access_key := cak.getD "", secret_key := csk.getD "", bucket := ccb.getD "",
            public_pfx := some "public", private_pfx := some "private" },
          ?_, ?_, rfl, rfl, rfl, rfl, rfl, rfl, rfl, rfl, rfl, rfl⟩
  · simp [get_tier_config, shared_tier_config, he, ha, hsk, hhb]
  · simp [get_tier_config, shared_tier_config, he, ha, hsk, hcb]
    exact ⟨rfl, rfl⟩

/-- A concrete shared-mode configuration with every shared field set and no
per-tier overrides and no prefix overrides. -/
def cfgSharedDefaults : S3StrataConfig :=
  { endpoint := some "s3.example.com", access_key := some "key",
    secret_key := some "secret", hot_bucket := some "hot-bucket",
    cold_bucket := some "cold-bucket" }

/-- Witness for claim C1's theorem at `cfgSharedDefaults`. -/
theorem hot_shared_defaults_resolve_pfx_to_none_witness :
    ∃ tcH tcC,
      get_tier_config cfgSharedDefaults StorageTier.HOT = Except.ok tcH ∧
      get_tier_config cfgSharedDefaults StorageTier.COLD = Except.ok tcC ∧
      tcH.endpoint = cfgSharedDefaults.endpoint.getD "" ∧
      tcH.access_key = cfgSharedDefaults.access_key.getD "" ∧
      tcH.secret_key = cfgSharedDefaults.secret_key.getD "" ∧
      tcH.bucket = cfgSharedDefaults.hot_bucket.getD "" ∧
      tcH.port = cfgSharedDefaults.port.getD 443 ∧
      tcH.use_ssl = cfgSharedDefaults.use_ssl.getD true ∧
      tcH.public_pfx = none ∧
      tcH.private_pfx = none ∧
      tcC.public_pfx = some "public" ∧
      tcC.private_pfx = some "private" :=
  hot_shared_defaults_resolve_pfx_to_none cfgSharedDefaults rfl rfl (by decide)
    (by decide) (by decide) (by decide) (by decide) rfl rfl rfl rfl

/-! ## Claim C9 — configuration errors for missing shared fields -/

/-- Claim C9: with no per-tier override for the requested tier and at least
one required shared field missing (endpoint, access_key, secret_key, or the
tier-appropriate bucket), tier resolution fails with an error whose message
contains the requested tier's name and the name of each missing field, and
no tier config is produced. -/
theorem resolve_tier_missing_fields_errors
    (config : S3StrataConfig) (tier : StorageTier)
    (hov : (tier = StorageTier.HOT → config.hot = none) ∧
      (tier = StorageTier.COLD → config.cold = none))
    (hmiss : config.endpoint = none ∨ config.access_key = none ∨ config.secret_key = none ∨
      (tier = StorageTier.HOT ∧ config.hot_bucket = none) ∨
      (tier = StorageTier.COLD ∧ config.cold_bucket = none)) :
    ∃ e, get_tier_config config tier = Except.error e ∧
      containsSub e tier.value ∧
      (config.endpoint = none → containsSub e "endpoint") ∧
      (config.access_key = none → containsSub e "access_key") ∧
      (config.secret_key = none → containsSub e "secret_key") ∧
      (tier = StorageTier.HOT → config.hot_bucket = none → containsSub e "hot_bucket") ∧
      (tier = StorageTier.COLD → config.cold_bucket = none → containsSub e "cold_bucket") := by
  obtain ⟨ce, cp, cssl, cak, csk, chb, ccb, cphh, cpvh, cphc, cpvc, chot, ccold, cadv⟩ := config
  simp only at hov hmiss
  cases tier with
  | HOT =>
    have hh : chot = none := hov.1 rfl
    subst hh
    cases hE : pyTruthy ce with
    | false =>
      refine ⟨missing_shared_msg StorageTier.HOT, ?_, by decide,
        fun _ => by decide, fun _ => by decide, fun _ => by decide,
        fun _ _ => by decide, fun h => StorageTier.noConfusion h⟩
      simp [get_tier_config, shared_tier_config, hE]
    | true =>
      cases hA : pyTruthy cak with
      | false =>
        refine ⟨missing_shared_msg StorageTier.HOT, ?_, by decide,
          fun _ => by decide, fun _ => by decide, fun _ => by decide,
          fun _ _ => by decide, fun h => StorageTier.noConfusion h⟩
        simp [get_tier_config, shared_tier_config, hA]
      | true =>
        cases hS : pyTruthy csk with
        | false =>
          refine ⟨missing_shared_msg StorageTier.HOT, ?_, by decide,
            fun _ => by decide, fun _ => by decide, fun _ => by decide,
            fun _ _ => by decide, fun h => StorageTier.noConfusion h⟩
          simp [get_tier_config, shared_tier_config, hS]
        | true =>
          have hb : chb = none := by
            rcases hmiss with h | h | h | ⟨_, h⟩ | ⟨h, _⟩
            · exact absurd h (pyTruthy_ne_none hE)
            · exact absurd h (pyTruthy_ne_none hA)
            · exact absurd h (pyTruthy_ne_none hS)
            · exact h
            · exact StorageTier.noConfusion h
          subst hb
          refine ⟨missing_bucket_msg StorageTier.HOT, ?_, by decide,
            fun h => absurd h (pyTruthy_ne_none hE),
            fun h => absurd h (pyTruthy_ne_none hA),
            fun h => absurd h (pyTruthy_ne_none hS),
            fun _ _ => by decide,
            fun h => StorageTier.noConfusion h⟩
          simp [get_tier_config, shared_tier_config, hE, hA, hS, pyTruthy_none_eq]
  | COLD =>
    have hh : ccold = none := hov.2 rfl
    subst hh
    cases hE : pyTruthy ce with
    | false =>
      refine ⟨missing_shared_msg StorageTier.COLD, ?_, by decide,
        fun _ => by decide, fun _ => by decide, fun _ => by decide,
        fun h => StorageTier.noConfusion h, fun _ _ => by decide⟩
      simp [get_tier_config, shared_tier_config, hE]
    | true =>
      cases hA : pyTruthy cak with
      | false =>
        refine ⟨missing_shared_msg StorageTier.COLD, ?_, by decide,
          fun _ => by decide, fun _ => by decide, fun _ => by decide,
          fun h => StorageTier.noConfusion h, fun _ _ => by decide⟩
        simp [get_tier_config, shared_tier_config, hA]
      | true =>
        cases hS : pyTruthy csk with
        | false =>
          refine ⟨missing_shared_msg StorageTier.COLD, ?_, by decide,
            fun _ => by decide, fun _ => by decide, fun _ => by decide,
            fun h => StorageTier.noConfusion h, fun _ _ => by decide⟩
          simp [get_tier_config, shared_tier_config, hS]
        | true =>
          have hb : ccb = none := by
            rcases hmiss with h | h | h | ⟨h, _⟩ | ⟨_, h⟩
            · exact absurd h (pyTruthy_ne_none hE)
            · exact absurd h (pyTruthy_ne_none hA)
            · exact absurd h (pyTruthy_ne_none hS)
            · exact StorageTier.noConfusion h
            · exact h
          subst hb
          refine ⟨missing_bucket_msg StorageTier.COLD, ?_, by decide,
            fun h => absurd h (pyTruthy_ne_none hE),
            fun h => absurd h (pyTruthy_ne_none hA),
            fun h => absurd h (pyTruthy_ne_none hS),
            fun h => StorageTier.noConfusion h,
            fun _ _ => by decide⟩
          simp [get_tier_config, shared_tier_config, hE, hA, hS, pyTruthy_none_eq]

/-- A shared-mode configuration whose `access_key` is missing. -/
def cfgMissingKey : S3StrataConfig :=
  { endpoint := some "s3.example.com", secret_key := some "secret",
    hot_bucket := some "hot-bucket" }

/-- Witness for claim C9's theorem at `cfgMissingKey` and the HOT tier. -/
theorem resolve_tier_missing_fields_errors_witness :
    ∃ e, get_tier_config cfgMissingKey StorageTier.HOT = Except.error e ∧
      containsSub e StorageTier.HOT.value ∧
      (cfgMissingKey.endpoint = none → containsSub e "endpoint") ∧
      (cfgMissingKey.access_key = none → containsSub e "access_key") ∧
      (cfgMissingKey.secret_key = none → containsSub e "secret_key") ∧
      (StorageTier.HOT = StorageTier.HOT → cfgMissingKey.hot_bucket = none →
        containsSub e "hot_bucket") ∧
      (StorageTier.HOT = StorageTier.COLD → cfgMissingKey.cold_bucket = none →
        containsSub e "cold_bucket") :=
  resolve_tier_missing_fields_errors cfgMissingKey StorageTier.HOT
    ⟨fun _ => rfl, fun h => StorageTier.noConfusion h⟩ (Or.inr (Or.inl rfl))

/-! ## Common concrete instances used by witnesses -/

/-- An object-store oracle on which every transport call fails. -/
def osAllFail : ObjectStore :=
  { uploadFails := fun _ _ => true, deleteFails := fun _ _ => true,
    moveFails := fun _ _ _ _ => true, presign := fun _ _ _ => "" }

/-- An object-store oracle on which every transport call succeeds. -/
def osAllOk : ObjectStore :=
  { uploadFails := fun _ _ => false, deleteFails := fun _ _ => false,
    moveFails := fun _ _ _ _ => false,
    presign := fun _ p e => "https://signed/" ++ p ++ "?expires=" ++ toString e }

/-- A concrete private HOT record. -/
def fileW : PhysicalFile :=
  { id := 1, storage_tier := StorageTier.HOT, filename := "a",
    path := "private/a", hot_until := none }

/-- A world holding exactly `fileW`. -/
def sW : SysState := { adapter := { records := [fileW], next_id := 2 } }

/-- An empty world. -/
def sEmpty : SysState := { adapter := { records := [], next_id := 1 } }

/-! ## Claim C6 — orphan detection -/

/-- Claim C6: `list_orphan_objects` returns exactly the remote objects whose
key is not among the paths of the **full** record set (not scoped by tier),
each tagged with its tier and that tier's bucket name. -/
theorem list_orphan_objects_spec
    (config : S3StrataConfig) (hot_objects cold_objects : List S3Object) (s : SysState)
    (hb cb : String)
    (hhb : get_bucket_name config StorageTier.HOT = Except.ok hb)
    (hcb : get_bucket_name config StorageTier.COLD = Except.ok cb) :
    ∃ l, list_orphan_objects config hot_objects cold_objects s = Except.ok l ∧
      ∀ o : OrphanObject, o ∈ l ↔
        ((∃ obj ∈ hot_objects, obj.key ∉ (adapter_find_all s).map (fun f => f.path) ∧
            o = to_orphan obj StorageTier.HOT hb) ∨
         (∃ obj ∈ cold_objects, obj.key ∉ (adapter_find_all s).map (fun f => f.path) ∧
            o = to_orphan obj StorageTier.COLD cb)) := by
  have hl : list_orphan_objects config hot_objects cold_objects s = Except.ok
      (((hot_objects.filter fun o =>
            decide (o.key ∉ (adapter_find_all s).map fun f => f.path)).map
          fun o => to_orphan o StorageTier.HOT hb) ++
       ((cold_objects.filter fun o =>
            decide (o.key ∉ (adapter_find_all s).map fun f => f.path)).map
          fun o => to_orphan o StorageTier.COLD cb)) := by
    unfold list_orphan_objects
    rw [hhb, hcb]
  refine ⟨_, hl, fun o => ?_⟩
  simp [List.mem_append, List.mem_map, List.mem_filter, eq_comm, and_assoc]

/-- The record set `{path: B}` of claim C6's concrete instance. -/
def sRecB : SysState :=
  { adapter := { records := [{ id := 1, storage_tier := StorageTier.HOT,
                               filename := "b", path := "B", hot_until := none }],
                 next_id := 2 } }

/-- Witness for claim C6's theorem: remote HOT objects `{A, B, C}` against
the record set `{path: B}`. -/
theorem list_orphan_objects_spec_witness :
    ∃ l, list_orphan_objects cfgSharedDefaults
        [{ key := "A" }, { key := "B" }, { key := "C" }] [] sRecB = Except.ok l ∧
      ∀ o : OrphanObject, o ∈ l ↔
        ((∃ obj ∈ ([{ key := "A" }, { key := "B" }, { key := "C" }] : List S3Object),
            obj.key ∉ (adapter_find_all sRecB).map (fun f => f.path) ∧
            o = to_orphan obj StorageTier.HOT "hot-bucket") ∨
         (∃ obj ∈ ([] : List S3Object),
            obj.key ∉ (adapter_find_all sRecB).map (fun f => f.path) ∧
            o = to_orphan obj StorageTier.COLD "cold-bucket")) :=
  list_orphan_objects_spec cfgSharedDefaults
    [{ key := "A" }, { key := "B" }, { key := "C" }] [] sRecB
    "hot-bucket" "cold-bucket" rfl rfl

/-! ## Claim C10 — set_visibility no-op at the current visibility -/

/-- Claim C10: when the visibility parsed from the record's path equals the
requested target, `set_visibility` returns the input record itself and the
world unchanged — in particular no object-store move event and no adapter
update event is appended. -/
theorem set_visibility_noop_at_current
    (os : ObjectStore) (config : S3StrataConfig) (now : Int) (file : PhysicalFile)
    (options : SetVisibilityOptions) (s : SysState)
    (hv : get_visibility_from_path file.path = Except.ok options.visibility) :
    set_visibility os config now file options s = (s, Except.ok file) := by
  simp [set_visibility, hv]

/-- Witness for claim C10's theorem: a private record kept private. -/
theorem set_visibility_noop_at_current_witness :
    set_visibility osAllOk cfgSharedDefaults 100 fileW
      { visibility := FileVisibility.PRIVATE } sW = (sW, Except.ok fileW) :=
  set_visibility_noop_at_current osAllOk cfgSharedDefaults 100 fileW
    { visibility := FileVisibility.PRIVATE } sW rfl

/-! ## Claim C5 — delete: object delete strictly before record delete -/

/-- Claim C5: `delete` issues the object-store delete of the record's path
strictly before the adapter's record delete (the success trace appends the
`deleteObject` event immediately before the `adapterDelete` event); when the
object delete fails, the error propagates with the world unchanged — in
particular the metadata record still exists. -/
theorem delete_object_before_record
    (os : ObjectStore) (file : PhysicalFile) (s : SysState) :
    (os.deleteFails file.storage_tier file.path = true →
      delete os file s = (s, Except.error "S3 delete failed")) ∧
    (os.deleteFails file.storage_tier file.path = false →
      (storedById s file.id).isSome = true →
      ∃ s', delete os file s = (s', Except.ok ()) ∧
        s'.events = s.events ++ [Event.deleteObject file.storage_tier file.path,
          Event.adapterDelete file.id] ∧
        s'.adapter.records = s.adapter.records.filter fun r => !(r.id == file.id)) := by
  constructor
  · intro h
    simp [delete, os_delete, h]
  · intro h hst
    obtain ⟨f, hf⟩ := Option.isSome_iff_exists.mp hst
    have hs1 : storedById
        { s with events := s.events ++ [Event.deleteObject file.storage_tier file.path] }
          file.id = some f := hf
    have hdel : delete os file s =
        ({ adapter := { records := s.adapter.records.filter (fun r => !(r.id == file.id)),
                        next_id := s.adapter.next_id },
           events := (s.events ++ [Event.deleteObject file.storage_tier file.path]) ++
              [Event.adapterDelete file.id] }, Except.ok ()) := by
      unfold delete os_delete
      rw [h]
      simp only [Bool.false_eq_true, if_false]
      unfold adapter_delete
      rw [hs1]
    refine ⟨_, hdel, ?_, ?_⟩
    · simp
    · rfl

/-- Witness for claim C5's theorem: both conjuncts discharged at concrete
inputs (a failing transport and a succeeding one). -/
theorem delete_object_before_record_witness :
    delete osAllFail fileW sW = (sW, Except.error "S3 delete failed") ∧
    ∃ s', delete osAllOk fileW sW = (s', Except.ok ()) ∧
      s'.events = sW.events ++ [Event.deleteObject fileW.storage_tier fileW.path,
        Event.adapterDelete fileW.id] ∧
      s'.adapter.records = sW.adapter.records.filter fun r => !(r.id == fileW.id) :=
  ⟨(delete_object_before_record osAllFail fileW sW).1 rfl,
    (delete_object_before_record osAllOk fileW sW).2 rfl rfl⟩

/-! ## Claim C4 — upload: object put strictly before record create -/

/-- Claim C4: `upload` issues the object-store put at the computed path
`{resolvedPrefix}/{pathSuffix}` strictly before the adapter's `create` (the
success trace appends the `putObject` event immediately before the
`adapterCreate` event, and the created record's path is the put path); when
the put fails, the error propagates with the world unchanged — in particular
the adapter's record set is unchanged and no record is created. -/
theorem upload_object_before_record
    (os : ObjectStore) (config : S3StrataConfig) (now : Int) (uuidA uuidB : String)
    (data : List Nat) (options : UploadOptions) (s : SysState) (p : String)
    (hp : upload_full_path config options uuidA uuidB = Except.ok p) :
    (os.uploadFails (upload_tier config options) p = true →
      upload os config now uuidA uuidB data options s = (s, Except.error "S3 upload failed")) ∧
    (os.uploadFails (upload_tier config options) p = false →
      ∃ s' f, upload os config now uuidA uuidB data options s = (s', Except.ok f) ∧
        s'.events = s.events ++ [Event.putObject (upload_tier config options) p,
          Event.adapterCreate (upload_tier config options) (upload_filename options uuidA) p
            (upload_hot_until config now options)] ∧
        f.path = p ∧
        s'.adapter.records = s.adapter.records ++ [f]) := by
  constructor
  · intro h
    unfold upload
    rw [hp]
    simp [os_upload, h]
  · intro h
    have hup : upload os config now uuidA uuidB data options s =
        ({ adapter := { records := s.adapter.records ++
              [{ id := s.adapter.next_id, storage_tier := upload_tier config options,
                 filename := upload_filename options uuidA, path := p,
                 hot_until := upload_hot_until config now options,
                 created_at := some now, updated_at := some now }],
                        next_id := s.adapter.next_id + 1 },
           events := (s.events ++ [Event.putObject (upload_tier config options) p]) ++
              [Event.adapterCreate (upload_tier config options)
                (upload_filename options uuidA) p (upload_hot_until config now options)] },
         Except.ok
           { id := s.adapter.next_id, storage_tier := upload_tier config options,
             filename := upload_filename options uuidA, path := p,
             hot_until := upload_hot_until config now options,
             created_at := some now, updated_at := some now }) := by
      unfold upload
      rw [hp]
      simp only [os_upload, h, Bool.false_eq_true, if_false]
      rfl
    refine ⟨_, _, hup, ?_, rfl, rfl⟩
    simp

/-- The options of claim C4's witness: an explicit COLD upload (the resolved
private COLD prefix is the literal `"private"`). -/
def uploadOptsCold : UploadOptions := { tier := some StorageTier.COLD }

/-- Witness for claim C4's theorem: both conjuncts discharged at concrete
inputs (a failing transport and a succeeding one). -/
theorem upload_object_before_record_witness :
    (upload osAllFail cfgSharedDefaults 100 "uA" "uB" [7] uploadOptsCold sEmpty =
      (sEmpty, Except.error "S3 upload failed")) ∧
    ∃ s' f, upload osAllOk cfgSharedDefaults 100 "uA" "uB" [7] uploadOptsCold sEmpty =
        (s', Except.ok f) ∧
      s'.events = sEmpty.events ++
        [Event.putObject (upload_tier cfgSharedDefaults uploadOptsCold) "private/uB-uA",
          Event.adapterCreate (upload_tier cfgSharedDefaults uploadOptsCold)
            (upload_filename uploadOptsCold "uA") "private/uB-uA"
            (upload_hot_until cfgSharedDefaults 100 uploadOptsCold)] ∧
      f.path = "private/uB-uA" ∧
      s'.adapter.records = sEmpty.adapter.records ++ [f] :=
  ⟨(upload_object_before_record osAllFail cfgSharedDefaults 100 "uA" "uB" [7]
      uploadOptsCold sEmpty "private/uB-uA" rfl).1 rfl,
    (upload_object_before_record osAllOk cfgSharedDefaults 100 "uA" "uB" [7]
      uploadOptsCold sEmpty "private/uB-uA" rfl).2 rfl⟩

/-! ## Lemmas about the adapter table -/

theorem find_replaceById_self {l : List PhysicalFile} {id : Nat} {f g : PhysicalFile}
    (hf : l.find? (fun r => r.id == id) = some f) (hg : g.id = id) :
    (replaceById l id g).find? (fun r => r.id == id) = some g := by
  unfold replaceById
  induction l with
  | nil => simp at hf
  | cons a l ih =>
    cases ha : (a.id == id) with
    | true =>
      simp only [List.map_cons, ha, if_true]
      rw [List.find?_cons_of_pos]
      simp [hg]
    | false =>
      rw [List.find?_cons_of_neg _ (by simp [ha])] at hf
      simp only [List.map_cons, ha, if_false]
      rw [List.find?_cons_of_neg _ (by simp [ha])]
      exact ih hf

theorem find_replaceById_ne {l : List PhysicalFile} {id id' : Nat} {g : PhysicalFile}
    (hne : id' ≠ id) (hg : g.id = id) :
    (replaceById l id g).find? (fun r => r.id == id') =
      l.find? (fun r => r.id == id') := by
  unfold replaceById
  induction l with
  | nil => simp
  | cons a l ih =>
    cases ha : (a.id == id) with
    | true =>
      have haid : a.id = id := by simpa using ha
      simp only [List.map_cons, ha, if_true]
      rw [List.find?_cons_of_neg _ (by simp [hg, Ne.symm hne]),
        List.find?_cons_of_neg _ (by simp [haid, Ne.symm hne])]
      exact ih
    | false =>
      simp only [List.map_cons, ha, if_false]
      cases ha' : (a.id == id') with
      | true =>
        rw [List.find?_cons_of_pos _ (by simp [ha']),
          List.find?_cons_of_pos _ (by simp [ha'])]
        simp
      | false =>
        rw [List.find?_cons_of_neg _ (by simp [ha']),
          List.find?_cons_of_neg _ (by simp [ha'])]
        exact ih

theorem map_id_replaceById {l : List PhysicalFile} {id : Nat} {g : PhysicalFile}
    (hg : g.id = id) :
    ((replaceById l id g).map fun r => r.id) = l.map fun r => r.id := by
  unfold replaceById
  induction l with
  | nil => rfl
  | cons a l ih =>
    cases ha : (a.id == id) with
    | true =>
      have haid : a.id = id := by simpa using ha
      simp only [List.map_cons, ha, if_true, ih]
      rw [hg, haid]
    | false =>
      simp only [List.map_cons, ha, if_false, ih]
      simp

theorem find_of_nodup {l : List PhysicalFile}
    (hnd : (l.map fun r => r.id).Nodup) {f : PhysicalFile} (hf : f ∈ l) :
    l.find? (fun r => r.id == f.id) = some f := by
  induction l with
  | nil => simp at hf
  | cons a l ih =>
    rcases List.mem_cons.mp hf with rfl | hmem
    · rw [List.find?_cons_of_pos _ (by simp)]
    · have hane : a.id ≠ f.id := by
        intro he
        have : f.id ∈ l.map fun r => r.id := List.mem_map_of_mem _ hmem
        rw [List.map_cons] at hnd
        exact (List.nodup_cons.mp hnd).1 (he ▸ this)
      rw [List.find?_cons_of_neg _ (by simp [hane])]
      exact ih (by rw [List.map_cons] at hnd; exact (List.nodup_cons.mp hnd).2) hmem

/-! ## Claim C2 — set_tier to COLD and `hot_until`

Claim C2 asserts that moving a HOT record with `hot_until` set to COLD clears
`hot_until` in the returned record and the backing store.  `FileManager.set_tier`
indeed passes `hot_until=None` to the adapter (its own comment reads
"Moving to COLD, clear hot_until"), but the repository's reference adapter
(`SQLAlchemyAdapter.update`) applies arguments only when they are
`is not None`, so the explicit `None` is indistinguishable from "do not
update" and the stored and returned `hot_until` keep their old value.
The theorem proves this divergence: after the transition the tier is COLD
but `hot_until` is still the old timestamp, in the returned record and in
the store. -/

/-- Claim C2 (code bug): `set_tier` to COLD on a HOT record with
`hot_until = some t` succeeds and changes the tier, but the returned record
and the stored record still carry `hot_until = some t` — the clear intended
by the file manager is lost in the adapter's `None`-means-skip `update`. -/
theorem set_tier_to_cold_keeps_hot_until
    (os : ObjectStore) (now : Int) (f : PhysicalFile) (s : SysState) (t : Int)
    (htier : f.storage_tier = StorageTier.HOT)
    (hhu : f.hot_until = some t)
    (hstored : storedById s f.id = some f)
    (hmove : os.moveFails StorageTier.HOT f.path StorageTier.COLD f.path = false) :
    ∃ s' f', set_tier os now f { tier := StorageTier.COLD } s = (s', Except.ok f') ∧
      f'.storage_tier = StorageTier.COLD ∧
      f'.hot_until = some t ∧
      storedById s' f.id = some f' := by
  have hs1 : storedById
      { s with events := s.events ++
          [Event.moveObject StorageTier.HOT f.path StorageTier.COLD f.path] }
        f.id = some f := hstored
  have hset : set_tier os now f { tier := StorageTier.COLD } s =
      ({ adapter := { records := replaceById s.adapter.records f.id
                        (updatedRow now f (some StorageTier.COLD) none none),
                      next_id := s.adapter.next_id },
         events := (s.events ++
            [Event.moveObject StorageTier.HOT f.path StorageTier.COLD f.path]) ++
            [Event.adapterUpdate f.id (some StorageTier.COLD) none none] },
       Except.ok (updatedRow now f (some StorageTier.COLD) none none)) := by
    unfold set_tier
    rw [htier]
    simp only [reduceIte]
    unfold os_move
    rw [hmove]
    simp only [Bool.false_eq_true, reduceIte]
    unfold adapter_update
    rw [hs1]
    simp
  refine ⟨_, _, hset, rfl, ?_, ?_⟩
  · simp [updatedRow, hhu]
  · show storedById _ f.id = _
    unfold storedById
    exact find_replaceById_self hstored rfl

/-- A HOT record with a set `hot_until`. -/
def fileHot50 : PhysicalFile :=
  { id := 1, storage_tier := StorageTier.HOT, filename := "a",
    path := "private/a", hot_until := some 50 }

/-- A world holding exactly `fileHot50`. -/
def sHot50 : SysState := { adapter := { records := [fileHot50], next_id := 2 } }

/-- Witness for claim C2's theorem at `fileHot50`. -/
theorem set_tier_to_cold_keeps_hot_until_witness :
    ∃ s' f', set_tier osAllOk 100 fileHot50 { tier := StorageTier.COLD } sHot50 =
        (s', Except.ok f') ∧
      f'.storage_tier = StorageTier.COLD ∧
      f'.hot_until = some 50 ∧
      storedById s' fileHot50.id = some f' :=
  set_tier_to_cold_keeps_hot_until osAllOk 100 fileHot50 sHot50 50 rfl rfl rfl rfl

/-! ## Claim C8 — set_hot_duration

Claim C8 asserts: invalid-state error on non-HOT records (record
unchanged); on HOT records no object-store operation, `hot_until = now` for
duration 0, `hot_until = now + duration` for a nonzero duration, and a
cleared `hot_until` for a null duration.  Everything holds except the null
case: as with claim C2, `FileManager.set_hot_duration` passes
`hot_until=None` (the `SetHotDurationOptions` docstring reads "None to
clear"), but the reference adapter's `update` skips `None` arguments, so the
stored and returned `hot_until` keep their old value rather than being
cleared. -/

/-- Claim C8 (code bug): `set_hot_duration` errors on non-HOT records with
the world unchanged; on a HOT record the only event is the adapter update
(no object-store call), duration `d` sets `hot_until` to `now` when `d = 0`
and `now + d` otherwise, but a null duration leaves `hot_until` at its old
value instead of clearing it. -/
theorem set_hot_duration_spec
    (now : Int) (f : PhysicalFile) (s : SysState)
    (hstored : storedById s f.id = some f) :
    (∀ options, f.storage_tier ≠ StorageTier.HOT →
      set_hot_duration now f options s =
        (s, Except.error "set_hot_duration only applies to HOT tier files")) ∧
    (f.storage_tier = StorageTier.HOT →
      (∀ d : Int, ∃ s' f',
        set_hot_duration now f { duration := some d } s = (s', Except.ok f') ∧
        f'.hot_until = some (if d = 0 then now else now + d) ∧
        storedById s' f.id = some f' ∧
        s'.events = s.events ++
          [Event.adapterUpdate f.id none none (if d = 0 then some now else some (now + d))]) ∧
      (∃ s' f',
        set_hot_duration now f { duration := none } s = (s', Except.ok f') ∧
        f'.hot_until = f.hot_until ∧
        storedById s' f.id = some f' ∧
        s'.events = s.events ++ [Event.adapterUpdate f.id none none none])) := by
  refine ⟨?_, ?_⟩
  · intro options hne
    unfold set_hot_duration
    rw [if_pos hne]
  · intro htier
    constructor
    · intro d
      have hset : set_hot_duration now f { duration := some d } s =
          ({ adapter := { records := replaceById s.adapter.records f.id
                            (updatedRow now f none none
                              (if d = 0 then some now else some (now + d))),
                          next_id := s.adapter.next_id },
             events := s.events ++ [Event.adapterUpdate f.id none none
                (if d = 0 then some now else some (now + d))] },
           Except.ok (updatedRow now f none none
             (if d = 0 then some now else some (now + d)))) := by
        unfold set_hot_duration
        rw [htier]
        simp only [ne_eq, not_true_eq_false, if_false]
        unfold adapter_update
        rw [hstored]
      refine ⟨_, _, hset, ?_, ?_, rfl⟩
      · by_cases hd : d = 0 <;> simp [updatedRow, hd]
      · show storedById _ f.id = _
        unfold storedById
        exact find_replaceById_self hstored rfl
    · have hset : set_hot_duration now f { duration := none } s =
          ({ adapter := { records := replaceById s.adapter.records f.id
                            (updatedRow now f none none none),
                          next_id := s.adapter.next_id },
             events := s.events ++ [Event.adapterUpdate f.id none none none] },
           Except.ok (updatedRow now f none none none)) := by
        unfold set_hot_duration
        rw [htier]
        simp only [ne_eq, not_true_eq_false, if_false]
        unfold adapter_update
        rw [hstored]
      refine ⟨_, _, hset, ?_, ?_, rfl⟩
      · simp [updatedRow]
      · show storedById _ f.id = _
        unfold storedById
        exact find_replaceById_self hstored rfl

/-- Witness for claim C8's theorem at `fileHot50` (whose `hot_until` is
`some 50`): in particular the null-duration branch returns a record whose
`hot_until` equals the old `some 50` rather than `none`. -/
theorem set_hot_duration_spec_witness :
    (∀ options, fileHot50.storage_tier ≠ StorageTier.HOT →
      set_hot_duration 100 fileHot50 options sHot50 =
        (sHot50, Except.error "set_hot_duration only applies to HOT tier files")) ∧
    (fileHot50.storage_tier = StorageTier.HOT →
      (∀ d : Int, ∃ s' f',
        set_hot_duration 100 fileHot50 { duration := some d } sHot50 = (s', Except.ok f') ∧
        f'.hot_until = some (if d = 0 then (100 : Int) else 100 + d) ∧
        storedById s' fileHot50.id = some f' ∧
        s'.events = sHot50.events ++
          [Event.adapterUpdate fileHot50.id none none
            (if d = 0 then some (100 : Int) else some (100 + d))]) ∧
      (∃ s' f',
        set_hot_duration 100 fileHot50 { duration := none } sHot50 = (s', Except.ok f') ∧
        f'.hot_until = fileHot50.hot_until ∧
        storedById s' fileHot50.id = some f' ∧
        s'.events = sHot50.events ++ [Event.adapterUpdate fileHot50.id none none none])) :=
  set_hot_duration_spec 100 fileHot50 sHot50 rfl

/-! ## Claim C7 — best-effort archival of expired HOT records -/

/-- Evaluation of `set_tier` to COLD on a HOT record when the physical move
fails: the exception propagates with the world unchanged (the adapter update
is never reached). -/
theorem set_tier_cold_eval_fail
    (os : ObjectStore) (now : Int) (f : PhysicalFile) (s : SysState)
    (htier : f.storage_tier = StorageTier.HOT)
    (hmove : os.moveFails StorageTier.HOT f.path StorageTier.COLD f.path = true) :
    set_tier os now f { tier := StorageTier.COLD } s = (s, Except.error "S3 move failed") := by
  unfold set_tier
  rw [htier]
  simp only [reduceIte]
  unfold os_move
  rw [hmove]
  simp

/-- Evaluation of `set_tier` to COLD on a stored HOT record when the
physical move succeeds. -/
theorem set_tier_cold_eval_ok
    (os : ObjectStore) (now : Int) (f : PhysicalFile) (s : SysState)
    (htier : f.storage_tier = StorageTier.HOT)
    (hstored : storedById s f.id = some f)
    (hmove : os.moveFails StorageTier.HOT f.path StorageTier.COLD f.path = false) :
    set_tier os now f { tier := StorageTier.COLD } s =
      ({ adapter := { records := replaceById s.adapter.records f.id
                        (updatedRow now f (some StorageTier.COLD) none none),
                      next_id := s.adapter.next_id },
         events := (s.events ++
            [Event.moveObject StorageTier.HOT f.path StorageTier.COLD f.path]) ++
            [Event.adapterUpdate f.id (some StorageTier.COLD) none none] },
       Except.ok (updatedRow now f (some StorageTier.COLD) none none)) := by
  have hs1 : storedById
      { s with events := s.events ++
          [Event.moveObject StorageTier.HOT f.path StorageTier.COLD f.path] }
        f.id = some f := hstored
  unfold set_tier
  rw [htier]
  simp only [reduceIte]
  unfold os_move
  rw [hmove]
  simp only [Bool.false_eq_true, reduceIte]
  unfold adapter_update
  rw [hs1]
  simp

/-- The per-item loop of the archival sweep: over any snapshot list of
stored HOT records with distinct ids, the count accumulates exactly one per
record whose move succeeds, a record whose move fails is left stored
unchanged (still HOT), a record whose move succeeds is stored with tier
COLD, and records outside the list are untouched. -/
theorem archive_loop_spec
    (os : ObjectStore) (now : Int) (l : List PhysicalFile) (s : SysState) (n : Nat)
    (hl : ∀ f ∈ l, f.storage_tier = StorageTier.HOT ∧ storedById s f.id = some f)
    (hndl : (l.map fun r => r.id).Nodup) :
    ∃ s', archive_loop os now l s n =
        (s', n + l.countP
          (fun f => !(os.moveFails StorageTier.HOT f.path StorageTier.COLD f.path))) ∧
      (∀ f ∈ l, os.moveFails StorageTier.HOT f.path StorageTier.COLD f.path = true →
        storedById s' f.id = some f) ∧
      (∀ f ∈ l, os.moveFails StorageTier.HOT f.path StorageTier.COLD f.path = false →
        ∃ f', storedById s' f.id = some f' ∧ f'.storage_tier = StorageTier.COLD) ∧
      (∀ id, (∀ f ∈ l, f.id ≠ id) → storedById s' id = storedById s id) := by
  induction l generalizing s n with
  | nil =>
    exact ⟨s, by simp [archive_loop], by simp, by simp, fun _ _ => rfl⟩
  | cons f rest ih =>
    obtain ⟨htier, hstored⟩ := hl f (List.mem_cons_self f rest)
    have hndrest : (rest.map fun r => r.id).Nodup := by
      rw [List.map_cons] at hndl
      exact (List.nodup_cons.mp hndl).2
    have hfid : ∀ g ∈ rest, g.id ≠ f.id := by
      intro g hg he
      rw [List.map_cons] at hndl
      exact (List.nodup_cons.mp hndl).1 (he ▸ List.mem_map_of_mem _ hg)
    cases hmv : os.moveFails StorageTier.HOT f.path StorageTier.COLD f.path with
    | true =>
      have hstep := set_tier_cold_eval_fail os now f s htier hmv
      have hlrest : ∀ g ∈ rest, g.storage_tier = StorageTier.HOT ∧
          storedById s g.id = some g :=
        fun g hg => hl g (List.mem_cons_of_mem _ hg)
      obtain ⟨s', hloop, hkeep, hcold, hframe⟩ := ih s n hlrest hndrest
      have hcount : List.countP
          (fun g => !(os.moveFails StorageTier.HOT g.path StorageTier.COLD g.path))
          (f :: rest) = List.countP
          (fun g => !(os.moveFails StorageTier.HOT g.path StorageTier.COLD g.path)) rest := by
        rw [List.countP_cons_of_neg]
        simp [hmv]
      refine ⟨s', ?_, ?_, ?_, ?_⟩
      · rw [archive_loop, hstep, hcount]
        exact hloop
      · intro g hg hgmv
        rcases List.mem_cons.mp hg with rfl | hg'
        · rw [hframe g.id (fun r hr => hfid r hr)]
          exact hstored
        · exact hkeep g hg' hgmv
      · intro g hg hgmv
        rcases List.mem_cons.mp hg with rfl | hg'
        · rw [hgmv] at hmv
          exact absurd hmv (by simp)
        · exact hcold g hg' hgmv
      · intro id hid
        rw [hframe id (fun r hr => hid r (List.mem_cons_of_mem _ hr))]
    | false =>
      have hstep := set_tier_cold_eval_ok os now f s htier hstored hmv
      have hfind : s.adapter.records.find? (fun r => r.id == f.id) = some f := hstored
      have hlrest : ∀ g ∈ rest, g.storage_tier = StorageTier.HOT ∧
          storedById (set_tier os now f { tier := StorageTier.COLD } s).1 g.id = some g := by
        intro g hg
        refine ⟨(hl g (List.mem_cons_of_mem _ hg)).1, ?_⟩
        rw [hstep]
        show List.find? _ (replaceById _ _ _) = _
        rw [find_replaceById_ne (g := updatedRow now f (some StorageTier.COLD) none none)
          (hfid g hg) rfl]
        exact (hl g (List.mem_cons_of_mem _ hg)).2
      rw [hstep] at hlrest
      obtain ⟨s', hloop, hkeep, hcold, hframe⟩ := ih _ (n + 1) hlrest hndrest
      have hcount : List.countP
          (fun g => !(os.moveFails StorageTier.HOT g.path StorageTier.COLD g.path))
          (f :: rest) = List.countP
          (fun g => !(os.moveFails StorageTier.HOT g.path StorageTier.COLD g.path)) rest + 1 := by
        rw [List.countP_cons_of_pos]
        simp [hmv]
      have hstored2 : storedById (set_tier os now f { tier := StorageTier.COLD } s).1 f.id =
          some (updatedRow now f (some StorageTier.COLD) none none) := by
        rw [hstep]
        show List.find? _ (replaceById _ _ _) = _
        exact find_replaceById_self hfind rfl
      refine ⟨s', ?_, ?_, ?_, ?_⟩
      · rw [archive_loop, hstep]
        rw [hcount]
        have harith : n + (List.countP
            (fun g => !(os.moveFails StorageTier.HOT g.path StorageTier.COLD g.path)) rest + 1) =
            n + 1 + List.countP
            (fun g => !(os.moveFails StorageTier.HOT g.path StorageTier.COLD g.path)) rest := by
          omega
        rw [harith]
        exact hloop
      · intro g hg hgmv
        rcases List.mem_cons.mp hg with rfl | hg'
        · rw [hgmv] at hmv
          exact absurd hmv (by simp)
        · exact hkeep g hg' hgmv
      · intro g hg hgmv
        rcases List.mem_cons.mp hg with rfl | hg'
        · refine ⟨updatedRow now g (some StorageTier.COLD) none none, ?_, rfl⟩
          rw [hframe g.id (fun r hr => hfid r hr)]
          rw [hstep] at hstored2
          exact hstored2
        · exact hcold g hg' hgmv
      · intro id hid
        rw [hframe id (fun r hr => hid r (List.mem_cons_of_mem _ hr))]
        show List.find? _ (replaceById _ _ _) = _
        rw [find_replaceById_ne (g := updatedRow now f (some StorageTier.COLD) none none)
          (Ne.symm (hid f (List.mem_cons_self f rest))) rfl]
        rfl

/-- Claim C7: over the expired HOT records fetched by the adapter (assuming
the table's ids are distinct, as for a primary key), the archival sweep
never raises (it is a total function into a final state and a count),
returns exactly the number of records whose COLD transition succeeded —
processing every record independently of other records' failures — leaves a
record whose transition failed stored unchanged (still HOT), and stores a
successfully transitioned record with tier COLD. -/
theorem archive_expired_hot_files_spec
    (os : ObjectStore) (now : Int) (s : SysState)
    (hnd : (s.adapter.records.map fun r => r.id).Nodup) :
    ∃ s', archive_expired_hot_files os now s =
        (s', (find_expired_hot_files now s).countP
          (fun f => !(os.moveFails StorageTier.HOT f.path StorageTier.COLD f.path))) ∧
      (∀ f ∈ find_expired_hot_files now s,
        os.moveFails StorageTier.HOT f.path StorageTier.COLD f.path = true →
        storedById s' f.id = some f ∧ f.storage_tier = StorageTier.HOT) ∧
      (∀ f ∈ find_expired_hot_files now s,
        os.moveFails StorageTier.HOT f.path StorageTier.COLD f.path = false →
        ∃ f', storedById s' f.id = some f' ∧ f'.storage_tier = StorageTier.COLD) := by
  have hmem : ∀ f ∈ find_expired_hot_files now s,
      f ∈ s.adapter.records ∧ f.storage_tier = StorageTier.HOT := by
    intro f hf
    unfold find_expired_hot_files at hf
    have h := List.mem_filter.mp hf
    refine ⟨h.1, ?_⟩
    have h2 := h.2
    rw [Bool.and_eq_true] at h2
    exact by simpa using h2.1
  have hl : ∀ f ∈ find_expired_hot_files now s,
      f.storage_tier = StorageTier.HOT ∧ storedById s f.id = some f := by
    intro f hf
    refine ⟨(hmem f hf).2, ?_⟩
    unfold storedById
    exact find_of_nodup hnd (hmem f hf).1
  have hndl : ((find_expired_hot_files now s).map fun r => r.id).Nodup := by
    have hsub : List.Sublist (find_expired_hot_files now s) s.adapter.records := by
      unfold find_expired_hot_files
      exact List.filter_sublist _
    exact List.Nodup.sublist (hsub.map _) hnd
  obtain ⟨s', h1, h2, h3, _⟩ :=
    archive_loop_spec os now (find_expired_hot_files now s) s 0 hl hndl
  refine ⟨s', ?_, ?_, h3⟩
  · unfold archive_expired_hot_files
    simpa using h1
  · intro f hf hmv
    exact ⟨h2 f hf hmv, (hmem f hf).2⟩

/-- Three expired HOT records. -/
def fileR1 : PhysicalFile :=
  { id := 1, storage_tier := StorageTier.HOT, filename := "r1",
    path := "private/r1", hot_until := some 50 }

/-- Second expired HOT record (its move will fail in the witness). -/
def fileR2 : PhysicalFile :=
  { id := 2, storage_tier := StorageTier.HOT, filename := "r2",
    path := "private/r2", hot_until := some 60 }

/-- Third expired HOT record. -/
def fileR3 : PhysicalFile :=
  { id := 3, storage_tier := StorageTier.HOT, filename := "r3",
    path := "private/r3", hot_until := some 70 }

/-- A world holding the three expired HOT records. -/
def sThree : SysState :=
  { adapter := { records := [fileR1, fileR2, fileR3], next_id := 4 } }

/-- A transport that fails exactly the move of `fileR2`'s object. -/
def osFailR2 : ObjectStore :=
  { uploadFails := fun _ _ => false, deleteFails := fun _ _ => false,
    moveFails := fun _ p _ _ => p == "private/r2", presign := fun _ _ _ => "" }

/-- Witness for claim C7's theorem: 3 expired records with exactly one
failing transition yield a moved count of 2 (the `countP` in the applied
theorem evaluates to 2 on this input), and the failed record remains HOT. -/
theorem archive_expired_hot_files_spec_witness :
    ∃ s', archive_expired_hot_files osFailR2 100 sThree = (s', 2) ∧
      (∀ f ∈ find_expired_hot_files 100 sThree,
        osFailR2.moveFails StorageTier.HOT f.path StorageTier.COLD f.path = true →
        storedById s' f.id = some f ∧ f.storage_tier = StorageTier.HOT) ∧
      (∀ f ∈ find_expired_hot_files 100 sThree,
        osFailR2.moveFails StorageTier.HOT f.path StorageTier.COLD f.path = false →
        ∃ f', storedById s' f.id = some f' ∧ f'.storage_tier = StorageTier.COLD) :=
  archive_expired_hot_files_spec osFailR2 100 sThree (by decide)

/-! ## Claim C3 — custom visibility prefixes break the URL round trip

Visibility is parsed from a record's path by
`FileManager._get_visibility_from_path` against the hardcoded literals
`"public/"` and `"private/"` only, never against the configured prefixes,
while `upload` builds paths from the configured prefixes.  Claim C3 states
that for **every** configuration whose resolved prefixes differ from the
literals, the upload-then-`get_url` round trip fails with the invalid-path
error.  That is almost right, but not for every such configuration: a
configured prefix that itself *extends* a literal (e.g. `"public/archive"`,
which differs from `"public"`) produces paths that still begin with
`"public/"`, so the parse succeeds and `get_url` does not raise —
`custom_pfx_claim_counterexample` below exhibits this.  The amended claim
restricts to prefixes that neither equal a literal nor start with
`"public/"`/`"private/"`; `custom_pfx_breaks_url_roundtrip` proves it. -/

theorem listStarts_append (a b : List Char) : listStarts (a ++ b) a = true := by
  induction a with
  | nil => cases b <;> rfl
  | cons c a ih => simp [listStarts, ih]

/-- A word-then-slash pattern matches a path `p ++ "/" ++ x` exactly when
the path's head segment `p` is the word itself or the pattern occurs inside
`p`. -/
theorem listStarts_append_slash (w : List Char) (hw : '/' ∉ w) (p x : List Char) :
    (listStarts (p ++ '/' :: x) (w ++ ['/']) = true ↔
      p = w ∨ listStarts p (w ++ ['/']) = true) := by
  induction w generalizing p with
  | nil =>
    cases p with
    | nil => simp [listStarts]
    | cons c p' => simp [listStarts]
  | cons a w' ih =>
    have ha : a ≠ '/' := fun he => hw (he ▸ List.mem_cons_self a w')
    have hw' : '/' ∉ w' := fun hm => hw (List.mem_cons_of_mem _ hm)
    cases p with
    | nil =>
      simp [listStarts, Ne.symm ha]
    | cons c p' =>
      simp only [List.cons_append, listStarts, Bool.and_eq_true, beq_iff_eq,
        List.append_eq, ih hw' p', List.cons.injEq]
      tauto

/-- Parsing visibility from `rp ++ "/" ++ suffix` fails whenever `rp` is
neither a literal prefix nor an extension of one. -/
theorem visibility_parse_fails (rp suffix : String)
    (h1 : rp ≠ "public") (h2 : rp ≠ "private")
    (h3 : startswith rp "public/" = false) (h4 : startswith rp "private/" = false) :
    get_visibility_from_path (rp ++ "/" ++ suffix) =
      Except.error ("Invalid path format: " ++ (rp ++ "/" ++ suffix)) := by
  have hdata : (rp ++ "/" ++ suffix).data = rp.data ++ '/' :: suffix.data := by
    rw [String.data_append, String.data_append]
    simp
  have hpub : startswith (rp ++ "/" ++ suffix) "public/" = false := by
    unfold startswith
    rw [hdata, show ("public/" : String).data = ("public" : String).data ++ ['/'] from rfl]
    rw [Bool.eq_false_iff]
    intro hc
    rcases (listStarts_append_slash ("public" : String).data (by decide) _ _).mp hc with
      he | hs
    · exact h1 (String.ext he)
    · rw [show (("public" : String).data ++ ['/']) = ("public/" : String).data from rfl] at hs
      unfold startswith at h3
      rw [h3] at hs
      exact Bool.false_ne_true hs
  have hpriv : startswith (rp ++ "/" ++ suffix) "private/" = false := by
    unfold startswith
    rw [hdata, show ("private/" : String).data = ("private" : String).data ++ ['/'] from rfl]
    rw [Bool.eq_false_iff]
    intro hc
    rcases (listStarts_append_slash ("private" : String).data (by decide) _ _).mp hc with
      he | hs
    · exact h2 (String.ext he)
    · rw [show (("private" : String).data ++ ['/']) = ("private/" : String).data from rfl] at hs
      unfold startswith at h4
      rw [h4] at hs
      exact Bool.false_ne_true hs
  unfold get_visibility_from_path
  rw [hpub, hpriv]
  simp

theorem get_url_parse_error (os : ObjectStore) (config : S3StrataConfig)
    (file : PhysicalFile) (uopts : GetUrlOptions) (e : String)
    (hv : get_visibility_from_path file.path = Except.error e) :
    get_url os config file uopts = Except.error e := by
  unfold get_url
  rw [hv]

theorem set_visibility_parse_error (os : ObjectStore) (config : S3StrataConfig)
    (now : Int) (file : PhysicalFile) (vopts : SetVisibilityOptions) (s : SysState)
    (e : String) (hv : get_visibility_from_path file.path = Except.error e) :
    set_visibility os config now file vopts s = (s, Except.error e) := by
  unfold set_visibility
  rw [hv]

/-- Claim C3 (amended): for every configuration whose resolved prefix for
the uploaded tier/visibility neither equals the literal `"public"`/
`"private"` nor starts with `"public/"`/`"private/"`, a successful upload
creates a record whose path begins with the configured prefix, yet both
`get_url` and `set_visibility` on that record fail with the invalid-path
error — the upload-then-get_url round trip fails. -/
theorem custom_pfx_breaks_url_roundtrip
    (os : ObjectStore) (config : S3StrataConfig) (now : Int) (uuidA uuidB : String)
    (data : List Nat) (options : UploadOptions) (s s2 : SysState)
    (pp : Option String) (uopts : GetUrlOptions) (vopts : SetVisibilityOptions)
    (hpp : get_path_pfx config (upload_tier config options)
      (upload_visibility config options) = Except.ok pp)
    (h1 : renderOptStr pp ≠ "public") (h2 : renderOptStr pp ≠ "private")
    (h3 : startswith (renderOptStr pp) "public/" = false)
    (h4 : startswith (renderOptStr pp) "private/" = false)
    (hup : os.uploadFails (upload_tier config options)
      (renderOptStr pp ++ "/" ++ upload_suffix options uuidA uuidB) = false) :
    ∃ s' f, upload os config now uuidA uuidB data options s = (s', Except.ok f) ∧
      f.path = renderOptStr pp ++ "/" ++ upload_suffix options uuidA uuidB ∧
      startswith f.path (renderOptStr pp) = true ∧
      get_url os config f uopts = Except.error ("Invalid path format: " ++ f.path) ∧
      set_visibility os config now f vopts s2 =
        (s2, Except.error ("Invalid path format: " ++ f.path)) := by
  have hp : upload_full_path config options uuidA uuidB =
      Except.ok (renderOptStr pp ++ "/" ++ upload_suffix options uuidA uuidB) := by
    unfold upload_full_path build_path
    rw [hpp]
    rfl
  have hupload : upload os config now uuidA uuidB data options s =
      ({ adapter := { records := s.adapter.records ++
            [{ id := s.adapter.next_id, storage_tier := upload_tier config options,
               filename := upload_filename options uuidA,
               path := renderOptStr pp ++ "/" ++ upload_suffix options uuidA uuidB,
               hot_until := upload_hot_until config now options,
               created_at := some now, updated_at := some now }],
                      next_id := s.adapter.next_id + 1 },
         events := (s.events ++ [Event.putObject (upload_tier config options)
            (renderOptStr pp ++ "/" ++ upload_suffix options uuidA uuidB)]) ++
            [Event.adapterCreate (upload_tier config options)
              (upload_filename options uuidA)
              (renderOptStr pp ++ "/" ++ upload_suffix options uuidA uuidB)
              (upload_hot_until config now options)] },
       Except.ok
         { id := s.adapter.next_id, storage_tier := upload_tier config options,
           filename := upload_filename options uuidA,
           path := renderOptStr pp ++ "/" ++ upload_suffix options uuidA uuidB,
           hot_until := upload_hot_until config now options,
           created_at := some now, updated_at := some now }) := by
    unfold upload
    rw [hp]
    simp only [os_upload, hup, Bool.false_eq_true, if_false]
    rfl
  have hparse := visibility_parse_fails (renderOptStr pp)
    (upload_suffix options uuidA uuidB) h1 h2 h3 h4
  have hsw : startswith (renderOptStr pp ++ "/" ++ upload_suffix options uuidA uuidB)
      (renderOptStr pp) = true := by
    unfold startswith
    rw [String.data_append, String.data_append, List.append_assoc]
    exact listStarts_append _ _
  refine ⟨_, _, hupload, rfl, hsw, ?_, ?_⟩
  · exact get_url_parse_error os config _ uopts _ hparse
  · exact set_visibility_parse_error os config now _ vopts s2 _ hparse

/-- A shared-mode configuration whose custom HOT prefixes differ from the
literals by being custom prefixes (the witness instance of the amended
claim). -/
def cfgCustomPfx : S3StrataConfig :=
  { endpoint := some "s3.example.com", access_key := some "key",
    secret_key := some "secret", hot_bucket := some "hot-bucket",
    cold_bucket := some "cold-bucket", public_hot_pfx := some "open",
    private_hot_pfx := some "locked" }

/-- Witness for claim C3's amended theorem at `cfgCustomPfx` (resolved
private HOT prefix `"locked"`; default options upload privately to HOT). -/
theorem custom_pfx_breaks_url_roundtrip_witness :
    ∃ s' f, upload osAllOk cfgCustomPfx 100 "uA" "uB" [7] {} sEmpty = (s', Except.ok f) ∧
      f.path = renderOptStr (some "locked") ++ "/" ++ upload_suffix {} "uA" "uB" ∧
      startswith f.path (renderOptStr (some "locked")) = true ∧
      get_url osAllOk cfgCustomPfx f {} = Except.error ("Invalid path format: " ++ f.path) ∧
      set_visibility osAllOk cfgCustomPfx 100 f { visibility := FileVisibility.PUBLIC }
        sEmpty = (sEmpty, Except.error ("Invalid path format: " ++ f.path)) :=
  custom_pfx_breaks_url_roundtrip osAllOk cfgCustomPfx 100 "uA" "uB" [7] {} sEmpty sEmpty
    (some "locked") {} { visibility := FileVisibility.PUBLIC } rfl (by decide) (by decide)
    (by decide) (by decide) rfl

/-- A shared-mode configuration whose custom HOT prefixes extend the
literal prefixes: they differ from `"public"`/`"private"` (so claim C3's
premise holds) yet produce paths the literal parse still accepts. -/
def cfgSlashPfx : S3StrataConfig :=
  { endpoint := some "s3.example.com", access_key := some "key",
    secret_key := some "secret", hot_bucket := some "hot-bucket",
    cold_bucket := some "cold-bucket", public_hot_pfx := some "public/archive",
    private_hot_pfx := some "private/archive" }

/-- Counterexample to claim C3 as stated: under `cfgSlashPfx` the resolved
HOT prefixes are `"public/archive"`/`"private/archive"`, both different
from the literals `"public"`/`"private"`, and an uploaded record's path
begins with the configured prefix — yet `get_url` does **not** raise the
invalid-path error: it succeeds with a public URL, because the path still
begins with the literal `"public/"`. -/
theorem custom_pfx_claim_counterexample :
    get_path_pfx cfgSlashPfx StorageTier.HOT FileVisibility.PUBLIC =
      Except.ok (some "public/archive") ∧
    get_path_pfx cfgSlashPfx StorageTier.HOT FileVisibility.PRIVATE =
      Except.ok (some "private/archive") ∧
    ("public/archive" : String) ≠ "public" ∧
    ("private/archive" : String) ≠ "private" ∧
    ∃ s' f, upload osAllOk cfgSlashPfx 100 "uA" "uB" [7]
        { visibility := some FileVisibility.PUBLIC } sEmpty = (s', Except.ok f) ∧
      f.path = "public/archive/uB-uA" ∧
      startswith f.path "public/archive" = true ∧
      get_url osAllOk cfgSlashPfx f {} =
        Except.ok "https://s3.example.com/hot-bucket/public/archive/uB-uA" := by
  refine ⟨rfl, rfl, by decide, by decide, _, _, rfl, rfl, by decide, ?_⟩
  rfl

end S3Strata
